import Mathlib

/-!
Verification of the GEE-Indexing backend (Flask + Earth Engine proxy).

This file gives a shallow embedding of the locally computed logic of the
repository:

* `compute_derivatives`        from src/controllers/satellite_controller.py
* `validate_date_range`        from src/utils/helpers.py
* the request handlers `composite` and `timeseries`
                               from src/controllers/satellite_controller.py

Modelling conventions:

* Python floats are modelled as exact rationals (`ℚ`); Python `None` as
  `Option.none`.
* Fallible Python operations are modelled in `Except Unit`: a `-` applied
  to `None` (TypeError), `float(None)` (TypeError) and out-of-range list
  indexing (IndexError) all return `.error ()`.
* Request bodies are modelled as already-decoded, well-typed records
  (JSON decoding, `float(...)`/`int(...)` coercion of `max_cloud`, `scale`,
  `lat`, `lng`, and transport-level failures are outside the model).
* The external Earth Engine service is an oracle parameter of the
  handlers; `timeseries` additionally reports whether the oracle was
  consulted.
-/

/-- Python binary `-` on two possibly-`None` operands: `a - b` raises a
TypeError (modelled as `.error ()`) unless both operands are numbers.
Models the subtractions in `compute_derivatives`
(src/controllers/satellite_controller.py lines 110-123). -/
def pySub (a b : Option ℚ) : Except Unit ℚ :=
  match a, b with
  | some x, some y => .ok (x - y)
  | _, _ => .error ()

/-- Python list indexing `l[i]` for a non-negative index: raises an
IndexError (modelled as `.error ()`) when `i` is out of range. -/
def pyIndex {α : Type} (l : List α) (i : ℕ) : Except Unit α :=
  match l[i]? with
  | some x => .ok x
  | none => .error ()

/-- Sequential fail-fast mapping of a fallible body over a list: the
evaluation model of a Python `for` loop that appends one computed element
per iteration and lets exceptions propagate. -/
def mapME {α β : Type} (f : α → Except Unit β) : List α → Except Unit (List β)
  | [] => .ok []
  | a :: l => do
      let b ← f a
      let bs ← mapME f l
      .ok (b :: bs)

/-- Embedding of `compute_derivatives(values)`
(src/controllers/satellite_controller.py lines 110-123):

    first = [None]
    for i in range(1, len(values)):
        first.append(values[i] - values[i - 1])
    second = [None, None]
    for i in range(2, len(values)):
        second.append(first[i] - first[i - 1])
    return first, second

`List.range' 1 (n - 1)` is Python's `range(1, n)` and
`List.range' 2 (n - 2)` is `range(2, n)`. -/
def compute_derivatives (values : List (Option ℚ)) :
    Except Unit (List (Option ℚ) × List (Option ℚ)) := do
  let fdiffs ← mapME (fun i => do
      let a ← pyIndex values i
      let b ← pyIndex values (i - 1)
      pySub a b) (List.range' 1 (values.length - 1))
  let first : List (Option ℚ) := none :: fdiffs.map some
  let sdiffs ← mapME (fun i => do
      let a ← pyIndex first i
      let b ← pyIndex first (i - 1)
      pySub a b) (List.range' 2 (values.length - 2))
  let second : List (Option ℚ) := none :: none :: sdiffs.map some
  return (first, second)

/-- Closed form of the `first` output of `compute_derivatives` on an input
whose entries are all defined. -/
def firstD (vs : List ℚ) : List (Option ℚ) :=
  none :: (List.range' 1 (vs.length - 1)).map
    (fun i => some (vs.getD i 0 - vs.getD (i - 1) 0))

/-- Closed form of the `second` output of `compute_derivatives` on an input
whose entries are all defined. -/
def secondD (vs : List ℚ) : List (Option ℚ) :=
  none :: none :: (List.range' 2 (vs.length - 2)).map
    (fun i => some ((vs.getD i 0 - vs.getD (i - 1) 0) -
      (vs.getD (i - 1) 0 - vs.getD (i - 2) 0)))

/-- Numeric value of an ASCII digit character. -/
def charVal (c : Char) : ℕ := c.toNat - 48

/-- Day field of CPython's strptime directive `%d`, whose regex is
`3[01]|[12]\d|0[1-9]|[1-9]`, required here to reach the end of the string
(strptime raises ValueError on unconverted trailing data).  Alternatives
are tried in regex order; ASCII digits only. -/
def parseDayEnd (cs : List Char) : Option ℕ :=
  (match cs with
   | ['3', c] => if '0' ≤ c ∧ c ≤ '1' then some (30 + charVal c) else none
   | _ => none) <|>
  (match cs with
   | [a, c] =>
       if ('1' ≤ a ∧ a ≤ '2') ∧ ('0' ≤ c ∧ c ≤ '9') then
         some (10 * charVal a + charVal c)
       else none
   | _ => none) <|>
  (match cs with
   | ['0', c] => if '1' ≤ c ∧ c ≤ '9' then some (charVal c) else none
   | _ => none) <|>
  (match cs with
   | [c] => if '1' ≤ c ∧ c ≤ '9' then some (charVal c) else none
   | _ => none)

/-- Literal `-` separator followed by the day field. -/
def parseDashDay (cs : List Char) : Option ℕ :=
  match cs with
  | '-' :: rest => parseDayEnd rest
  | _ => none

/-- Month field of CPython's strptime directive `%m`, whose regex is
`1[0-2]|0[1-9]|[1-9]`, followed by `-` and the day field.  Each alternative
is tried with the full continuation, which models regex backtracking. -/
def parseMonthRest (cs : List Char) : Option (ℕ × ℕ) :=
  (match cs with
   | '1' :: c :: rest =>
       if '0' ≤ c ∧ c ≤ '2' then
         (parseDashDay rest).map (fun dv => (10 + charVal c, dv))
       else none
   | _ => none) <|>
  (match cs with
   | '0' :: c :: rest =>
       if '1' ≤ c ∧ c ≤ '9' then
         (parseDashDay rest).map (fun dv => (charVal c, dv))
       else none
   | _ => none) <|>
  (match cs with
   | c :: rest =>
       if '1' ≤ c ∧ c ≤ '9' then
         (parseDashDay rest).map (fun dv => (charVal c, dv))
       else none
   | _ => none)

/-- Regex phase of CPython's `strptime(s, "%Y-%m-%d")`: exactly four digits
for `%Y`, a literal `-`, the `%m` field, a literal `-`, and the `%d` field
ending the string.  ASCII digits only (the CPython regex is Unicode-aware;
this model covers the ASCII fragment). -/
def parseYMD (s : String) : Option (ℕ × ℕ × ℕ) :=
  match s.data with
  | y1 :: y2 :: y3 :: y4 :: '-' :: rest =>
    if ('0' ≤ y1 ∧ y1 ≤ '9') ∧ ('0' ≤ y2 ∧ y2 ≤ '9') ∧
       ('0' ≤ y3 ∧ y3 ≤ '9') ∧ ('0' ≤ y4 ∧ y4 ≤ '9') then
      (parseMonthRest rest).map (fun md =>
        (1000 * charVal y1 + 100 * charVal y2 + 10 * charVal y3 + charVal y4,
         md.1, md.2))
    else none
  | _ => none

/-- Gregorian leap-year rule used by Python's datetime. -/
def isLeapYear (y : ℕ) : Bool := y % 4 = 0 && (y % 100 != 0 || y % 400 = 0)

/-- Number of days in a month, as validated by Python's datetime. -/
def daysInMonth (y m : ℕ) : ℕ :=
  if m = 2 then (if isLeapYear y then 29 else 28)
  else if m = 4 ∨ m = 6 ∨ m = 9 ∨ m = 11 then 30 else 31

/-- Validation performed by the `datetime.datetime(year, month, day)`
constructor: `ValueError` (here `none`) outside `1 <= year <= 9999`,
`1 <= month <= 12`, `1 <= day <= daysInMonth`. -/
def mkDatetime (y m d : ℕ) : Option (ℕ × ℕ × ℕ) :=
  if 1 ≤ y ∧ y ≤ 9999 ∧ 1 ≤ m ∧ m ≤ 12 ∧ 1 ≤ d ∧ d ≤ daysInMonth y m then
    some (y, m, d)
  else none

/-- Embedding of `datetime.datetime.strptime(s, "%Y-%m-%d")`: regex phase,
then datetime construction; `none` models the ValueError. -/
def strptimeYMD (s : String) : Option (ℕ × ℕ × ℕ) :=
  match parseYMD s with
  | some (y, m, d) => mkDatetime y m d
  | none => none

/-- Python datetime `<`: lexicographic on (year, month, day). -/
def dateLt (a b : ℕ × ℕ × ℕ) : Bool :=
  decide (a.1 < b.1) || (decide (a.1 = b.1) &&
    (decide (a.2.1 < b.2.1) ||
      (decide (a.2.1 = b.2.1) && decide (a.2.2 < b.2.2))))

/-- Embedding of `validate_date_range(start_date, end_date)`
(src/utils/helpers.py lines 3-9): parse both strings with
`strptime(_, "%Y-%m-%d")`, return `s < e`; a ValueError from either parse
is caught and yields `False`. -/
def validate_date_range (start_date end_date : String) : Bool :=
  match strptimeYMD start_date, strptimeYMD end_date with
  | some s, some e => dateLt s e
  | _, _ => false

/-- ASCII fragment of Python `str.upper()`, applied by the composite
handler to `index_type`. -/
def pyUpperChar (c : Char) : Char :=
  if 'a' ≤ c ∧ c ≤ 'z' then Char.ofNat (c.toNat - 32) else c

/-- ASCII fragment of Python `str.upper()` on a whole string. -/
def pyUpper (s : String) : String := ⟨s.data.map pyUpperChar⟩

/-- Decoded body of a `/api/composite` request; `geometry` only records
presence (its contents are consumed by the external service). -/
structure CompReq where
  geometry : Option Unit
  start_date : String
  end_date : String
  max_cloud : ℚ
  index_type : String
  scale : ℤ

/-- Status, success flag and error message of a composite response; the
tile/download URLs and vis_params of the 200 response are elided. -/
structure CompResponse where
  status : ℕ
  success : Bool
  error : String

/-- Embedding of the `composite()` handler
(src/controllers/satellite_controller.py lines 36-105), POST path:
`index_type` is uppercased at extraction; then the checks run in source
order - missing geometry (400), invalid date range (400), empty collection
(404, with `count` the size reported by the external service), then the
four-way `index_type` dispatch with a 400 `"Invalid index_type"` fallback.
Upstream exceptions (the 500 path) are outside the model. -/
def composite (req : CompReq) (count : ℕ) : CompResponse :=
  let index_type := pyUpper req.index_type
  if req.geometry = none then ⟨400, false, "Missing geometry"⟩
  else if validate_date_range req.start_date req.end_date = false then
    ⟨400, false, "Invalid date range"⟩
  else if count = 0 then ⟨404, false, "No images found"⟩
  else if index_type = "NDVI" then ⟨200, true, ""⟩
  else if index_type = "NDWI" then ⟨200, true, ""⟩
  else if index_type = "NSMI" then ⟨200, true, ""⟩
  else if index_type = "TRUE_COLOR" then ⟨200, true, ""⟩
  else ⟨400, false, "Invalid index_type"⟩

/-- Python `float(x)` on a possibly-`None` value: `float(None)` raises a
TypeError (modelled as `.error ()`). -/
def pyFloat (x : Option ℚ) : Except Unit ℚ :=
  match x with
  | some v => .ok v
  | none => .error ()

/-- Round-half-to-even to the nearest integer, the rounding of CPython's
`round` (floats modelled as exact rationals). -/
def roundHalfEven (x : ℚ) : ℤ :=
  let n := ⌊x⌋
  let r := x - (n : ℚ)
  if r < 1/2 then n
  else if 1/2 < r then n + 1
  else if n % 2 = 0 then n else n + 1

/-- CPython `round(x, ndigits)` on exact rationals: round-half-to-even at
the given decimal place. -/
def pyRound (ndigits : ℕ) (x : ℚ) : ℚ :=
  (roundHalfEven (x * 10 ^ ndigits) : ℚ) / 10 ^ ndigits

/-- One feature returned by the external service for one satellite pass:
a date string plus possibly-undefined pixel statistics
(src/controllers/satellite_controller.py lines 157-172). -/
structure Feature where
  date : String
  ndvi : Option ℚ
  ndwi : Option ℚ
  nsmi : Option ℚ
  cloud : Option ℚ

/-- One retained observation of the base time series
(src/controllers/satellite_controller.py lines 177-187). -/
structure Result where
  date : String
  ndvi : ℚ
  ndwi : ℚ
  nsmi : ℚ
  cloud_cover : ℚ
deriving Inhabited

/-- One observation with the six derivative fields attached
(src/controllers/satellite_controller.py lines 201-209). -/
structure ResultD where
  date : String
  ndvi : ℚ
  ndwi : ℚ
  nsmi : ℚ
  cloud_cover : ℚ
  ndvi_d1 : Option ℚ
  ndvi_d2 : Option ℚ
  ndwi_d1 : Option ℚ
  ndwi_d2 : Option ℚ
  nsmi_d1 : Option ℚ
  nsmi_d2 : Option ℚ

/-- Embedding of the base time-series comprehension
(src/controllers/satellite_controller.py lines 177-187): keep features
whose NDVI is not None, then build the row, where `float(...)` of a `None`
NDWI, NSMI or cloud value raises (TypeError -> 500 path); NDVI, NDWI and
NSMI are rounded to 4 decimal places. -/
def buildResults (features : List Feature) : Except Unit (List Result) :=
  mapME (fun f => do
      let nv ← pyFloat f.ndvi
      let nw ← pyFloat f.ndwi
      let ns ← pyFloat f.nsmi
      let cl ← pyFloat f.cloud
      return { date := f.date, ndvi := pyRound 4 nv, ndwi := pyRound 4 nw,
               nsmi := pyRound 4 ns, cloud_cover := cl })
    (features.filter (fun f => f.ndvi.isSome))

/-- Embedding of `results.sort(key=lambda x: x["date"])`
(src/controllers/satellite_controller.py line 189): stable sort,
non-decreasing by date string. -/
def sortResults (results : List Result) : List Result :=
  results.mergeSort (fun a b => decide (a.date ≤ b.date))

/-- Row `i` of the derivative-attachment loop in closed form: the base row
with each derivative field set to entry `i` of the corresponding
derivative list, rounded to 5 decimal places when defined. -/
def attachRow (results : List Result) (i : ℕ) : ResultD :=
  let r := results.getD i default
  let nv := results.map Result.ndvi
  let nw := results.map Result.ndwi
  let ns := results.map Result.nsmi
  { date := r.date, ndvi := r.ndvi, ndwi := r.ndwi, nsmi := r.nsmi,
    cloud_cover := r.cloud_cover,
    ndvi_d1 := ((firstD nv).getD i none).map (pyRound 5),
    ndvi_d2 := ((secondD nv).getD i none).map (pyRound 5),
    ndwi_d1 := ((firstD nw).getD i none).map (pyRound 5),
    ndwi_d2 := ((secondD nw).getD i none).map (pyRound 5),
    nsmi_d1 := ((firstD ns).getD i none).map (pyRound 5),
    nsmi_d2 := ((secondD ns).getD i none).map (pyRound 5) }

/-- Embedding of the derivative computation and attachment
(src/controllers/satellite_controller.py lines 192-209): build the three
metric columns, run `compute_derivatives` on each, then for each index of
`results` attach the six derivative fields, each `None` kept as `None` and
otherwise rounded to 5 decimal places; list indexing may raise. -/
def attachDerivs (results : List Result) : Except Unit (List ResultD) := do
  let nd ← compute_derivatives (results.map (fun r => some r.ndvi))
  let nw ← compute_derivatives (results.map (fun r => some r.ndwi))
  let ns ← compute_derivatives (results.map (fun r => some r.nsmi))
  mapME (fun i => do
      let r ← pyIndex results i
      let a1 ← pyIndex nd.1 i
      let a2 ← pyIndex nd.2 i
      let b1 ← pyIndex nw.1 i
      let b2 ← pyIndex nw.2 i
      let c1 ← pyIndex ns.1 i
      let c2 ← pyIndex ns.2 i
      return { date := r.date, ndvi := r.ndvi, ndwi := r.ndwi,
               nsmi := r.nsmi, cloud_cover := r.cloud_cover,
               ndvi_d1 := a1.map (pyRound 5), ndvi_d2 := a2.map (pyRound 5),
               ndwi_d1 := b1.map (pyRound 5), ndwi_d2 := b2.map (pyRound 5),
               nsmi_d1 := c1.map (pyRound 5), nsmi_d2 := c2.map (pyRound 5) })
    (List.range results.length)

/-- Decoded body of a `/api/timeseries` request. -/
structure TsRequest where
  lat : Option ℚ
  lng : Option ℚ
  start_date : String
  end_date : String
  max_cloud : ℚ

/-- Response of the timeseries handler. -/
structure TsResponse where
  status : ℕ
  success : Bool
  data : List ResultD
  count : ℕ

/-- Embedding of the `timeseries()` handler
(src/controllers/satellite_controller.py lines 124-219), POST path:
missing lat/lng (400), invalid date range (400), then the external fetch
followed by filtering, sorting and derivative attachment; a TypeError in
either phase is the 500 path.  The second component records whether the
external imagery service was consulted. -/
def timeseries (req : TsRequest) (fetch : Unit → List Feature) :
    TsResponse × Bool :=
  match req.lat, req.lng with
  | some _, some _ =>
    if validate_date_range req.start_date req.end_date = false then
      ({ status := 400, success := false, data := [], count := 0 }, false)
    else
      match buildResults (fetch ()) with
      | .error _ => ({ status := 500, success := false, data := [], count := 0 }, true)
      | .ok results =>
        match attachDerivs (sortResults results) with
        | .error _ => ({ status := 500, success := false, data := [], count := 0 }, true)
        | .ok out =>
          ({ status := 200, success := true, data := out, count := out.length }, true)
  | _, _ => ({ status := 400, success := false, data := [], count := 0 }, false)

/-! ## Helper lemmas -/

@[simp] theorem ok_bind {α β : Type} (a : α) (f : α → Except Unit β) :
    (Except.ok a : Except Unit α) >>= f = f a := rfl

@[simp] theorem error_bind {α β : Type} (f : α → Except Unit β) :
    (Except.error () : Except Unit α) >>= f = .error () := rfl

theorem mapME_ok_of_forall {α β : Type} {l : List α} {f : α → Except Unit β}
    {g : α → β} (h : ∀ a ∈ l, f a = .ok (g a)) : mapME f l = .ok (l.map g) := by
  induction l with
  | nil => rfl
  | cons a t ih =>
    have ha : f a = .ok (g a) := h a (by simp)
    have ht : mapME f t = .ok (t.map g) := ih (fun x hx => h x (by simp [hx]))
    simp only [mapME, ha, ht, ok_bind, List.map_cons]

theorem mapME_ok_length {α β : Type} {l : List α} {f : α → Except Unit β}
    {l' : List β} (h : mapME f l = .ok l') : l'.length = l.length := by
  induction l generalizing l' with
  | nil =>
    rw [mapME] at h
    cases h
    rfl
  | cons a t ih =>
    rw [mapME] at h
    cases hfa : f a with
    | error e =>
      cases e
      rw [hfa, error_bind] at h
      exact Except.noConfusion h
    | ok b =>
      rw [hfa, ok_bind] at h
      cases hmt : mapME f t with
      | error e =>
        cases e
        rw [hmt, error_bind] at h
        exact Except.noConfusion h
      | ok bs =>
        rw [hmt, ok_bind] at h
        cases h
        simp [ih hmt]

theorem mapME_error_of_mem {α β : Type} {l : List α} {f : α → Except Unit β}
    {a : α} (ha : a ∈ l) (hf : f a = .error ()) : mapME f l = .error () := by
  induction l with
  | nil => cases ha
  | cons b t ih =>
    rcases List.mem_cons.mp ha with rfl | hat
    · simp only [mapME, hf, error_bind]
    · cases hfb : f b with
      | error e => cases e; simp only [mapME, hfb, error_bind]
      | ok v => simp only [mapME, hfb, ok_bind, ih hat, error_bind]

theorem mapME_ok_forall_mem {α β : Type} {l : List α} {f : α → Except Unit β}
    {l' : List β} (h : mapME f l = .ok l') : ∀ a ∈ l, ∃ b, f a = .ok b := by
  induction l generalizing l' with
  | nil => intro a ha; cases ha
  | cons b t ih =>
    rw [mapME] at h
    cases hfb : f b with
    | error e =>
      cases e
      rw [hfb, error_bind] at h
      exact Except.noConfusion h
    | ok v =>
      rw [hfb, ok_bind] at h
      cases hmt : mapME f t with
      | error e =>
        cases e
        rw [hmt, error_bind] at h
        exact Except.noConfusion h
      | ok bs =>
        intro a ha
        rcases List.mem_cons.mp ha with rfl | hat
        · exact ⟨v, hfb⟩
        · exact ih hmt a hat

theorem pyIndex_eq_ok {α : Type} (l : List α) (i : ℕ) (d : α)
    (h : i < l.length) : pyIndex l i = .ok (l.getD i d) := by
  simp [pyIndex, List.getElem?_eq_getElem h, List.getD_eq_getElem?_getD]

theorem getD_map_some (vs : List ℚ) (i : ℕ) (h : i < vs.length) :
    (vs.map some).getD i none = some (vs.getD i 0) := by
  simp [List.getD_eq_getElem?_getD, List.getElem?_map, List.getElem?_eq_getElem h]

theorem firstD_length (vs : List ℚ) : (firstD vs).length = max vs.length 1 := by
  simp [firstD]
  omega

theorem secondD_length (vs : List ℚ) : (secondD vs).length = max vs.length 2 := by
  simp [secondD]
  omega

theorem firstD_getD_zero (vs : List ℚ) : (firstD vs).getD 0 none = none := rfl

theorem firstD_getD (vs : List ℚ) (i : ℕ) (h1 : 1 ≤ i) (h2 : i < vs.length) :
    (firstD vs).getD i none = some (vs.getD i 0 - vs.getD (i - 1) 0) := by
  obtain ⟨j, rfl⟩ : ∃ j, i = j + 1 := ⟨i - 1, by omega⟩
  have hj : j < vs.length - 1 := by omega
  have harith : 1 + 1 * j = j + 1 := by omega
  simp [firstD, List.getD_eq_getElem?_getD, List.getElem?_map,
    List.getElem?_range' _ _ hj, harith]
  rw [Nat.add_comm 1 j]

theorem secondD_getD_zero (vs : List ℚ) : (secondD vs).getD 0 none = none := rfl

theorem secondD_getD_one (vs : List ℚ) : (secondD vs).getD 1 none = none := rfl

theorem secondD_getD (vs : List ℚ) (i : ℕ) (h1 : 2 ≤ i) (h2 : i < vs.length) :
    (secondD vs).getD i none =
      some ((vs.getD i 0 - vs.getD (i - 1) 0) -
        (vs.getD (i - 1) 0 - vs.getD (i - 2) 0)) := by
  obtain ⟨j, rfl⟩ : ∃ j, i = j + 2 := ⟨i - 2, by omega⟩
  have hj : j < vs.length - 2 := by omega
  have harith : 2 + 1 * j = j + 2 := by omega
  simp [secondD, List.getD_eq_getElem?_getD, List.getElem?_map,
    List.getElem?_range' _ _ hj, harith]
  rw [Nat.add_comm 2 j, Nat.add_comm 1 j]

theorem bind_ok_inv {α β : Type} {x : Except Unit α} {g : α → Except Unit β}
    {b : β} (h : x >>= g = .ok b) : ∃ a, x = .ok a ∧ g a = .ok b := by
  cases x with
  | error e =>
    cases e
    rw [error_bind] at h
    exact Except.noConfusion h
  | ok a => exact ⟨a, rfl, by rwa [ok_bind] at h⟩

theorem compute_derivatives_map_some (vs : List ℚ) :
    compute_derivatives (vs.map some) = .ok (firstD vs, secondD vs) := by
  have hlen : (vs.map some).length = vs.length := by simp
  have h1 : mapME (fun i => do
        let a ← pyIndex (vs.map some) i
        let b ← pyIndex (vs.map some) (i - 1)
        pySub a b) (List.range' 1 ((vs.map some).length - 1)) =
      .ok ((List.range' 1 (vs.length - 1)).map
        (fun i => vs.getD i 0 - vs.getD (i - 1) 0)) := by
    rw [hlen]
    apply mapME_ok_of_forall
    intro i hi
    have hm := List.mem_range'_1.mp hi
    have hilt : i < vs.length := by omega
    have hilt1 : i - 1 < vs.length := by omega
    have hilt' : i < (vs.map some).length := by simpa using hilt
    have hilt1' : i - 1 < (vs.map some).length := by simpa using hilt1
    simp only [pyIndex_eq_ok _ _ none hilt', pyIndex_eq_ok _ _ none hilt1',
      ok_bind, getD_map_some _ _ hilt, getD_map_some _ _ hilt1]
    rfl
  have hfd : (none :: (((List.range' 1 (vs.length - 1)).map
      (fun i => vs.getD i 0 - vs.getD (i - 1) 0)).map some) : List (Option ℚ)) =
      firstD vs := by
    rw [List.map_map]
    rfl
  simp only [compute_derivatives, h1, ok_bind, hfd]
  have h2 : mapME (fun i => do
        let a ← pyIndex (firstD vs) i
        let b ← pyIndex (firstD vs) (i - 1)
        pySub a b) (List.range' 2 ((vs.map some).length - 2)) =
      .ok ((List.range' 2 (vs.length - 2)).map
        (fun i => (vs.getD i 0 - vs.getD (i - 1) 0) -
          (vs.getD (i - 1) 0 - vs.getD (i - 2) 0))) := by
    rw [hlen]
    apply mapME_ok_of_forall
    intro i hi
    have hm := List.mem_range'_1.mp hi
    have hiv : i < vs.length := by omega
    have hfl : i < (firstD vs).length := by rw [firstD_length]; omega
    have hfl1 : i - 1 < (firstD vs).length := by rw [firstD_length]; omega
    have h11 : i - 1 - 1 = i - 2 := by omega
    simp only [pyIndex_eq_ok _ _ none hfl, pyIndex_eq_ok _ _ none hfl1, ok_bind,
      firstD_getD vs i (by omega) hiv,
      firstD_getD vs (i - 1) (by omega) (by omega), h11]
    rfl
  simp only [h2, ok_bind]
  have hsd : (none :: none :: (((List.range' 2 (vs.length - 2)).map
      (fun i => (vs.getD i 0 - vs.getD (i - 1) 0) -
        (vs.getD (i - 1) 0 - vs.getD (i - 2) 0))).map some) : List (Option ℚ)) =
      secondD vs := by
    rw [List.map_map]
    rfl
  rw [hsd]
  rfl

theorem compute_derivatives_ok_shape {values f s}
    (h : compute_derivatives values = .ok (f, s)) :
    ∃ l1 l2 : List ℚ, l1.length = values.length - 1 ∧
      l2.length = values.length - 2 ∧
      f = none :: l1.map some ∧ s = none :: none :: l2.map some := by
  simp only [compute_derivatives] at h
  obtain ⟨l1, hl1, h⟩ := bind_ok_inv h
  obtain ⟨l2, hl2, h⟩ := bind_ok_inv h
  have hpair : ((none :: l1.map some : List (Option ℚ)),
      (none :: none :: l2.map some : List (Option ℚ))) = (f, s) :=
    Except.ok.inj h
  refine ⟨l1, l2, ?_, ?_, ?_, ?_⟩
  · have := mapME_ok_length hl1
    simpa using this
  · have := mapME_ok_length hl2
    simpa using this
  · exact (congrArg Prod.fst hpair).symm
  · exact (congrArg Prod.snd hpair).symm

theorem attachDerivs_eq (results : List Result) :
    attachDerivs results =
      .ok ((List.range results.length).map (attachRow results)) := by
  have hnv : results.map (fun r => some r.ndvi) =
      (results.map Result.ndvi).map some := by
    rw [List.map_map]
    rfl
  have hnw : results.map (fun r => some r.ndwi) =
      (results.map Result.ndwi).map some := by
    rw [List.map_map]
    rfl
  have hns : results.map (fun r => some r.nsmi) =
      (results.map Result.nsmi).map some := by
    rw [List.map_map]
    rfl
  simp only [attachDerivs, hnv, hnw, hns, compute_derivatives_map_some, ok_bind]
  apply mapME_ok_of_forall
  intro i hi
  have hiN : i < results.length := List.mem_range.mp hi
  have e1 : i < (firstD (results.map Result.ndvi)).length := by
    rw [firstD_length]
    simp only [List.length_map]
    omega
  have e2 : i < (secondD (results.map Result.ndvi)).length := by
    rw [secondD_length]
    simp only [List.length_map]
    omega
  have e3 : i < (firstD (results.map Result.ndwi)).length := by
    rw [firstD_length]
    simp only [List.length_map]
    omega
  have e4 : i < (secondD (results.map Result.ndwi)).length := by
    rw [secondD_length]
    simp only [List.length_map]
    omega
  have e5 : i < (firstD (results.map Result.nsmi)).length := by
    rw [firstD_length]
    simp only [List.length_map]
    omega
  have e6 : i < (secondD (results.map Result.nsmi)).length := by
    rw [secondD_length]
    simp only [List.length_map]
    omega
  simp only [pyIndex_eq_ok _ _ default hiN,
    pyIndex_eq_ok _ _ none e1, pyIndex_eq_ok _ _ none e2,
    pyIndex_eq_ok _ _ none e3, pyIndex_eq_ok _ _ none e4,
    pyIndex_eq_ok _ _ none e5, pyIndex_eq_ok _ _ none e6, ok_bind]
  rfl

theorem pySub_none_right (a : Option ℚ) : pySub a none = .error () := by
  cases a <;> rfl

theorem pySub_none_left (b : Option ℚ) : pySub none b = .error () := by
  cases b <;> rfl

theorem getD_eq_of_getElem {α : Type} (l : List α) (i : ℕ) (d : α)
    (h : i < l.length) : l.getD i d = l[i] := by
  rw [List.getD_eq_getElem?_getD, List.getElem?_eq_getElem h]
  rfl

/-! ## Claim theorems -/

/-- C1: on an input list of defined numbers, `compute_derivatives` returns
`first` with `first[0]` undefined and `first[i] = values[i] - values[i-1]`
for `1 <= i <= N-1`, and `second` with `second[0]`, `second[1]` undefined
and `second[i] = first[i] - first[i-1]` for `2 <= i <= N-1`; on
`[2, 5, 9, 9, 4]` it returns `([undef, 3, 4, 0, -5],
[undef, undef, 1, -4, -5])`. -/
theorem C1_compute_derivatives_formula (vs : List ℚ) (f s : List (Option ℚ))
    (h : compute_derivatives (vs.map some) = .ok (f, s)) :
    f.getD 0 none = none ∧
    (∀ i, 1 ≤ i → i < vs.length →
      f.getD i none = some (vs.getD i 0 - vs.getD (i - 1) 0)) ∧
    s.getD 0 none = none ∧ s.getD 1 none = none ∧
    (∀ i, 2 ≤ i → i < vs.length → ∀ a b,
      f.getD i none = some a → f.getD (i - 1) none = some b →
      s.getD i none = some (a - b)) ∧
    compute_derivatives (([2, 5, 9, 9, 4] : List ℚ).map some) =
      .ok ([none, some 3, some 4, some 0, some (-5)],
           [none, none, some 1, some (-4), some (-5)]) := by
  have hcm := compute_derivatives_map_some vs
  rw [h] at hcm
  have hp := Except.ok.inj hcm
  injection hp with hf0 hs0
  subst hf0
  subst hs0
  refine ⟨firstD_getD_zero vs, ?_, secondD_getD_zero vs, secondD_getD_one vs,
    ?_, ?_⟩
  · intro i h1 h2
    exact firstD_getD vs i h1 h2
  · intro i h1 h2 a b ha hb
    rw [firstD_getD vs i (by omega) h2] at ha
    rw [firstD_getD vs (i - 1) (by omega) (by omega)] at hb
    have ha' := Option.some.inj ha
    have hb' := Option.some.inj hb
    have h11 : i - 1 - 1 = i - 2 := by omega
    rw [h11] at hb'
    rw [secondD_getD vs i h1 h2, ha', hb']
  · rw [compute_derivatives_map_some]
    norm_num [firstD, secondD, List.range', List.getD_cons_succ,
      List.getD_cons_zero]

/-- Witness for C1 at the concrete input `[2, 5, 9, 9, 4]`. -/
theorem C1_compute_derivatives_formula_witness :
    ([none, some 3, some 4, some 0, some (-5)] : List (Option ℚ)).getD 0 none =
      none :=
  (C1_compute_derivatives_formula [2, 5, 9, 9, 4]
    [none, some 3, some 4, some 0, some (-5)]
    [none, none, some 1, some (-4), some (-5)] (by
      rw [compute_derivatives_map_some]
      norm_num [firstD, secondD, List.range', List.getD_cons_succ,
        List.getD_cons_zero])).1

/-- C2 counterexample: on the empty input, `compute_derivatives` returns
lists of length 1 and 2, not of the input length 0, so the outputs are not
always the same length as the input. -/
theorem C2_counterexample_lengths :
    ¬ ∀ (values f s : List (Option ℚ)),
        compute_derivatives values = .ok (f, s) →
        f.length = values.length ∧ s.length = values.length := by
  intro hall
  have h := hall [] [none] [none, none] rfl
  simp at h

/-- C2, amended: whenever `compute_derivatives` returns, `first` has length
`max N 1` and `second` has length `max N 2` (equal to the input length `N`
only for `N >= 2`; for `N = 0` the lengths are 1 and 2, for `N = 1` they
are 1 and 2). -/
theorem C2_output_lengths (values f s : List (Option ℚ))
    (h : compute_derivatives values = .ok (f, s)) :
    f.length = max values.length 1 ∧ s.length = max values.length 2 := by
  obtain ⟨l1, l2, hl1, hl2, hf, hs⟩ := compute_derivatives_ok_shape h
  subst hf
  subst hs
  constructor
  · simp only [List.length_cons, List.length_map, hl1]
    omega
  · simp only [List.length_cons, List.length_map, hl2]
    omega

/-- Witness for C2 on the empty input. -/
theorem C2_output_lengths_witness :
    ([none] : List (Option ℚ)).length = max ([] : List (Option ℚ)).length 1 ∧
    ([none, none] : List (Option ℚ)).length =
      max ([] : List (Option ℚ)).length 2 :=
  C2_output_lengths [] [none] [none, none] rfl

/-- C3 counterexample: the input `[None, 1]` contains an undefined entry
and `compute_derivatives` raises a TypeError on it (`1 - None`) instead of
returning with an undefined difference. -/
theorem C3_counterexample_none_raises :
    (none : Option ℚ) ∈ [(none : Option ℚ), some 1] ∧
    compute_derivatives [(none : Option ℚ), some 1] = .error () :=
  ⟨by simp, rfl⟩

/-- C3, amended: on every input of length at least 2 that contains an
undefined entry, `compute_derivatives` raises a TypeError (the undefined
operand is not propagated as an undefined difference). -/
theorem C3_none_entry_raises (values : List (Option ℚ))
    (h2 : 2 ≤ values.length) (hn : none ∈ values) :
    compute_derivatives values = .error () := by
  obtain ⟨i, hi, hv⟩ := List.mem_iff_getElem.mp hn
  rcases Nat.eq_zero_or_pos i with h0 | h0
  · subst h0
    have hmem : (1 : ℕ) ∈ List.range' 1 (values.length - 1) := by
      rw [List.mem_range'_1]
      omega
    have hloop : mapME (fun i => do
        let a ← pyIndex values i
        let b ← pyIndex values (i - 1)
        pySub a b) (List.range' 1 (values.length - 1)) = .error () := by
      apply mapME_error_of_mem hmem
      simp only [pyIndex_eq_ok values 1 none (by omega),
        pyIndex_eq_ok values (1 - 1) none (by omega), ok_bind]
      have hz : values.getD (1 - 1) none = none := by
        rw [getD_eq_of_getElem values (1 - 1) none (by omega)]
        exact hv
      rw [hz]
      exact pySub_none_right _
    simp only [compute_derivatives, hloop, error_bind]
  · have hmem : i ∈ List.range' 1 (values.length - 1) := by
      rw [List.mem_range'_1]
      omega
    have hloop : mapME (fun i => do
        let a ← pyIndex values i
        let b ← pyIndex values (i - 1)
        pySub a b) (List.range' 1 (values.length - 1)) = .error () := by
      apply mapME_error_of_mem hmem
      simp only [pyIndex_eq_ok values i none (by omega),
        pyIndex_eq_ok values (i - 1) none (by omega), ok_bind]
      have hz : values.getD i none = none := by
        rw [getD_eq_of_getElem values i none hi]
        exact hv
      rw [hz]
      exact pySub_none_left _
    simp only [compute_derivatives, hloop, error_bind]

/-- Witness for C3 at the concrete input `[1, None]`. -/
theorem C3_none_entry_raises_witness :
    compute_derivatives [(some 1 : Option ℚ), none] = .error () :=
  C3_none_entry_raises [some 1, none] (by simp) (by simp)

/-- C4: on inputs of length 0 or 1 both outputs are entirely undefined
(concretely `[undef]` and `[undef, undef]`); on a defined input of length
2 the first derivative has exactly one defined entry, at index 1, and the
second derivative is entirely undefined. -/
theorem C4_short_inputs :
    (∀ values : List (Option ℚ), values.length ≤ 1 →
      compute_derivatives values = .ok ([none], [none, none])) ∧
    (∀ a b : ℚ, compute_derivatives [some a, some b] =
      .ok ([none, some (b - a)], [none, none])) := by
  constructor
  · intro values h
    rcases values with _ | ⟨x, t⟩
    · rfl
    · rcases t with _ | ⟨y, t'⟩
      · rfl
      · exfalso
        rw [List.length_cons, List.length_cons] at h
        omega
  · intro a b
    rfl

/-- Witness for C4 at inputs `[7]` and `[2, 5]`. -/
theorem C4_short_inputs_witness :
    compute_derivatives [(some 7 : Option ℚ)] = .ok ([none], [none, none]) ∧
    compute_derivatives [(some 2 : Option ℚ), some 5] =
      .ok ([none, some 3], [none, none]) := by
  constructor
  · exact C4_short_inputs.1 [some 7] (by simp)
  · have h := C4_short_inputs.2 2 5
    rw [show (5 : ℚ) - 2 = 3 by norm_num] at h
    exact h

/-- C5: `compute_derivatives` returns lists of length `max N 1` and
`max N 2`, so every index below the input length is in bounds for both;
consequently the attachment loop of the timeseries handler, which indexes
the six derivative lists at positions `0..N-1`, never fails with an
IndexError and produces one row per retained observation. -/
theorem C5_attach_in_bounds :
    (∀ (values f s : List (Option ℚ)),
      compute_derivatives values = .ok (f, s) →
      f.length = max values.length 1 ∧ s.length = max values.length 2 ∧
      ∀ i < values.length, i < f.length ∧ i < s.length) ∧
    (∀ results : List Result, ∃ out, attachDerivs results = .ok out ∧
      out.length = results.length) := by
  constructor
  · intro values f s h
    obtain ⟨l1, l2, hl1, hl2, hf, hs⟩ := compute_derivatives_ok_shape h
    subst hf
    subst hs
    refine ⟨?_, ?_, ?_⟩
    · simp only [List.length_cons, List.length_map, hl1]
      omega
    · simp only [List.length_cons, List.length_map, hl2]
      omega
    · intro i hi
      constructor
      · simp only [List.length_cons, List.length_map, hl1]
        omega
      · simp only [List.length_cons, List.length_map, hl2]
        omega
  · intro results
    refine ⟨_, attachDerivs_eq results, ?_⟩
    simp

/-- Witness for C5 at the concrete input `[1]`. -/
theorem C5_attach_in_bounds_witness :
    ([none] : List (Option ℚ)).length = max [some (1 : ℚ)].length 1 ∧
    ([none, none] : List (Option ℚ)).length = max [some (1 : ℚ)].length 2 ∧
    ∀ i < [some (1 : ℚ)].length,
      i < ([none] : List (Option ℚ)).length ∧
      i < ([none, none] : List (Option ℚ)).length :=
  C5_attach_in_bounds.1 [some 1] [none] [none, none] rfl

theorem row_ok_isSome {f : Feature} {b : Result}
    (hb : (do
      let nv ← pyFloat f.ndvi
      let nw ← pyFloat f.ndwi
      let ns ← pyFloat f.nsmi
      let cl ← pyFloat f.cloud
      return { date := f.date, ndvi := pyRound 4 nv, ndwi := pyRound 4 nw,
               nsmi := pyRound 4 ns, cloud_cover := cl } : Except Unit Result) =
      .ok b) :
    f.ndwi.isSome ∧ f.nsmi.isSome ∧ f.cloud.isSome := by
  cases hnv : f.ndvi <;> rw [hnv] at hb
  · rw [show pyFloat none = .error () from rfl, error_bind] at hb
    exact Except.noConfusion hb
  · rename_i v
    rw [show pyFloat (some v) = .ok v from rfl, ok_bind] at hb
    cases hnw : f.ndwi <;> rw [hnw] at hb
    · rw [show pyFloat none = .error () from rfl, error_bind] at hb
      exact Except.noConfusion hb
    · rename_i w
      rw [show pyFloat (some w) = .ok w from rfl, ok_bind] at hb
      cases hns : f.nsmi <;> rw [hns] at hb
      · rw [show pyFloat none = .error () from rfl, error_bind] at hb
        exact Except.noConfusion hb
      · rename_i x
        rw [show pyFloat (some x) = .ok x from rfl, ok_bind] at hb
        cases hcl : f.cloud <;> rw [hcl] at hb
        · rw [show pyFloat none = .error () from rfl, error_bind] at hb
          exact Except.noConfusion hb
        · simp [hnw, hns, hcl]

/-- C6: whenever the base time series is built without error (which is the
only way `compute_derivatives` is reached), every retained observation has
defined values for all metrics - a feature kept despite an undefined NDWI,
NSMI or cloud value would instead abort the construction - and the series
handed to `compute_derivatives` is sorted non-decreasing by its date string
before any derivative is computed. -/
theorem C6_series_invariant (features : List Feature) (rs : List Result)
    (h : buildResults features = .ok rs) :
    (∀ f ∈ features, f.ndvi.isSome →
      f.ndwi.isSome ∧ f.nsmi.isSome ∧ f.cloud.isSome) ∧
    List.Sorted (fun a b : Result => a.date ≤ b.date) (sortResults rs) := by
  constructor
  · intro f hf hnd
    have hmem : f ∈ features.filter (fun f => f.ndvi.isSome) :=
      List.mem_filter.mpr ⟨hf, hnd⟩
    obtain ⟨b, hb⟩ := mapME_ok_forall_mem h f hmem
    exact row_ok_isSome hb
  · have htrans : ∀ a b c : Result, decide (a.date ≤ b.date) = true →
        decide (b.date ≤ c.date) = true → decide (a.date ≤ c.date) = true := by
      intro a b c hab hbc
      simp only [decide_eq_true_eq] at hab hbc ⊢
      exact le_trans hab hbc
    have htotal : ∀ a b : Result,
        (decide (a.date ≤ b.date) || decide (b.date ≤ a.date)) = true := by
      intro a b
      simp only [Bool.or_eq_true, decide_eq_true_eq]
      exact le_total a.date b.date
    have hp := List.sorted_mergeSort htrans htotal rs
    exact List.Pairwise.imp (fun hab => by simpa using hab) hp

/-- Witness for C6 at a one-observation series with all metrics defined. -/
theorem C6_series_invariant_witness :
    List.Sorted (fun a b : Result => a.date ≤ b.date)
      (sortResults
        [⟨"2024-05-01", pyRound 4 1, pyRound 4 2, pyRound 4 3, 4⟩]) :=
  (C6_series_invariant
    [⟨"2024-05-01", some 1, some 2, some 3, some 4⟩]
    [⟨"2024-05-01", pyRound 4 1, pyRound 4 2, pyRound 4 3, 4⟩] rfl).2

theorem attach_field_d1 (c : List ℚ) (i : ℕ) (h : i < c.length) :
    ((firstD c).getD i none).map (pyRound 5) =
      (if i = 0 then none
       else some (pyRound 5 (c.getD i 0 - c.getD (i - 1) 0))) := by
  by_cases h0 : i = 0
  · subst h0
    rw [firstD_getD_zero]
    simp
  · rw [firstD_getD c i (by omega) h]
    simp [h0]

theorem attach_field_d2 (c : List ℚ) (i : ℕ) (h : i < c.length) :
    ((secondD c).getD i none).map (pyRound 5) =
      (if i < 2 then none
       else some (pyRound 5 ((c.getD i 0 - c.getD (i - 1) 0) -
         (c.getD (i - 1) 0 - c.getD (i - 2) 0)))) := by
  by_cases h0 : i < 2
  · interval_cases i
    · rw [secondD_getD_zero]
      simp
    · rw [secondD_getD_one]
      simp
  · rw [secondD_getD c i (by omega) h]
    simp [h0]

/-- C7: in every row the attachment loop produces, each of the six
derivative fields is `None` exactly at the leading undefined positions and
otherwise is the full-precision difference of the stored series values
rounded to 5 decimal places, with the same rounding function
(round-half-to-even, CPython `round`) applied at every position of every
metric; in particular an underlying value `0.123456` is reported as
`0.12346`. -/
theorem C7_rounding (results : List Result) (out : List ResultD)
    (h : attachDerivs results = .ok out) :
    (∀ i, i < results.length → ∀ rd, out[i]? = some rd →
      rd.ndvi_d1 = (if i = 0 then none
        else some (pyRound 5 ((results.map Result.ndvi).getD i 0 -
          (results.map Result.ndvi).getD (i - 1) 0))) ∧
      rd.ndvi_d2 = (if i < 2 then none
        else some (pyRound 5 (((results.map Result.ndvi).getD i 0 -
            (results.map Result.ndvi).getD (i - 1) 0) -
          ((results.map Result.ndvi).getD (i - 1) 0 -
            (results.map Result.ndvi).getD (i - 2) 0)))) ∧
      rd.ndwi_d1 = (if i = 0 then none
        else some (pyRound 5 ((results.map Result.ndwi).getD i 0 -
          (results.map Result.ndwi).getD (i - 1) 0))) ∧
      rd.ndwi_d2 = (if i < 2 then none
        else some (pyRound 5 (((results.map Result.ndwi).getD i 0 -
            (results.map Result.ndwi).getD (i - 1) 0) -
          ((results.map Result.ndwi).getD (i - 1) 0 -
            (results.map Result.ndwi).getD (i - 2) 0)))) ∧
      rd.nsmi_d1 = (if i = 0 then none
        else some (pyRound 5 ((results.map Result.nsmi).getD i 0 -
          (results.map Result.nsmi).getD (i - 1) 0))) ∧
      rd.nsmi_d2 = (if i < 2 then none
        else some (pyRound 5 (((results.map Result.nsmi).getD i 0 -
            (results.map Result.nsmi).getD (i - 1) 0) -
          ((results.map Result.nsmi).getD (i - 1) 0 -
            (results.map Result.nsmi).getD (i - 2) 0))))) ∧
    pyRound 5 (123456 / 1000000) = 12346 / 100000 := by
  constructor
  · rw [attachDerivs_eq] at h
    have hout := Except.ok.inj h
    intro i hi rd hrd
    rw [← hout] at hrd
    rw [List.getElem?_map, List.getElem?_range hi] at hrd
    have hrd' : attachRow results i = rd := Option.some.inj hrd
    subst hrd'
    have hc1 : i < (results.map Result.ndvi).length := by
      simpa using hi
    have hc2 : i < (results.map Result.ndwi).length := by
      simpa using hi
    have hc3 : i < (results.map Result.nsmi).length := by
      simpa using hi
    exact ⟨attach_field_d1 _ i hc1, attach_field_d2 _ i hc1,
      attach_field_d1 _ i hc2, attach_field_d2 _ i hc2,
      attach_field_d1 _ i hc3, attach_field_d2 _ i hc3⟩
  · norm_num [pyRound, roundHalfEven]

/-- Witness for C7: the concrete 5-decimal rounding example, through the
theorem applied to the empty series. -/
theorem C7_rounding_witness :
    pyRound 5 (123456 / 1000000 : ℚ) = 12346 / 100000 :=
  (C7_rounding [] [] rfl).2

/-- C8: `validate_date_range` returns true exactly when both strings parse
under `%Y-%m-%d` and the first date is strictly earlier than the second
(so equal dates and malformed strings give false); and whenever it returns
false, both the composite and the timeseries handler answer HTTP 400 with
success false. -/
theorem C8_validate_date_range_iff :
    (∀ s e : String, validate_date_range s e = true ↔
      ∃ ds de, strptimeYMD s = some ds ∧ strptimeYMD e = some de ∧
        dateLt ds de = true) ∧
    (∀ (req : CompReq) (count : ℕ),
      validate_date_range req.start_date req.end_date = false →
      (composite req count).status = 400 ∧
      (composite req count).success = false) ∧
    (∀ (req : TsRequest) (fetch : Unit → List Feature),
      validate_date_range req.start_date req.end_date = false →
      (timeseries req fetch).1.status = 400 ∧
      (timeseries req fetch).1.success = false) := by
  refine ⟨?_, ?_, ?_⟩
  · intro s e
    constructor
    · intro h
      unfold validate_date_range at h
      split at h
      · rename_i ds de hs he
        exact ⟨ds, de, hs, he, h⟩
      · exact absurd h (by simp)
    · rintro ⟨ds, de, hs, he, hlt⟩
      unfold validate_date_range
      rw [hs, he]
      exact hlt
  · intro req count hv
    unfold composite
    by_cases hg : req.geometry = none
    · simp [hg]
    · simp [hg, hv]
  · intro req fetch hv
    unfold timeseries
    cases hlat : req.lat <;> cases hlng : req.lng <;> simp [hv]

/-- Witness for C8: a valid range, equal dates through the composite
handler, and a malformed start date through the timeseries handler. -/
theorem C8_validate_date_range_iff_witness :
    validate_date_range "2020-01-01" "2020-03-04" = true ∧
    ((composite ⟨some (), "2020-05-05", "2020-05-05", 30, "NDVI", 10⟩
        3).status = 400 ∧
      (composite ⟨some (), "2020-05-05", "2020-05-05", 30, "NDVI", 10⟩
        3).success = false) ∧
    ((timeseries ⟨some 1, some 2, "bad-date", "2020-01-01", 30⟩
        (fun _ => [])).1.status = 400 ∧
      (timeseries ⟨some 1, some 2, "bad-date", "2020-01-01", 30⟩
        (fun _ => [])).1.success = false) := by
  refine ⟨?_, ?_, ?_⟩
  · exact (C8_validate_date_range_iff.1 "2020-01-01" "2020-03-04").mpr
      ⟨(2020, 1, 1), (2020, 3, 4), by decide, by decide, by decide⟩
  · exact C8_validate_date_range_iff.2.1 _ 3 (by decide)
  · exact C8_validate_date_range_iff.2.2 _ (fun _ => []) (by decide)

/-- C9: a timeseries request whose start date parses to a date not
strictly before its end date is answered with HTTP 400, success false, and
the external imagery service is never consulted. -/
theorem C9_early_400_no_external_call (req : TsRequest)
    (fetch : Unit → List Feature) (ds de : ℕ × ℕ × ℕ)
    (hs : strptimeYMD req.start_date = some ds)
    (he : strptimeYMD req.end_date = some de)
    (hge : dateLt ds de = false) :
    (timeseries req fetch).1.status = 400 ∧
    (timeseries req fetch).1.success = false ∧
    (timeseries req fetch).2 = false := by
  have hv : validate_date_range req.start_date req.end_date = false := by
    unfold validate_date_range
    rw [hs, he]
    exact hge
  unfold timeseries
  cases hlat : req.lat <;> cases hlng : req.lng <;> simp [hv]

/-- Witness for C9 at a request with start date after end date. -/
theorem C9_early_400_no_external_call_witness :
    (timeseries ⟨some 1, some 2, "2021-06-01", "2021-01-01", 30⟩
      (fun _ => [])).1.status = 400 ∧
    (timeseries ⟨some 1, some 2, "2021-06-01", "2021-01-01", 30⟩
      (fun _ => [])).1.success = false ∧
    (timeseries ⟨some 1, some 2, "2021-06-01", "2021-01-01", 30⟩
      (fun _ => [])).2 = false :=
  C9_early_400_no_external_call _ _ (2021, 6, 1) (2021, 1, 1) (by decide)
    (by decide) (by decide)

/-- C10 counterexample: a composite request with `index_type = "INVALID"`
but no geometry is answered 400 with the error message
`"Missing geometry"`, not `"Invalid index_type"`, so an invalid index type
does not always produce the `"Invalid index_type"` response. -/
theorem C10_counterexample_invalid_index :
    pyUpper "INVALID" ∉ (["NDVI", "NDWI", "NSMI", "TRUE_COLOR"] :
      List String) ∧
    composite ⟨none, "2020-01-01", "2020-06-01", 30, "INVALID", 10⟩ 3 =
      ⟨400, false, "Missing geometry"⟩ ∧
    ("Missing geometry" : String) ≠ "Invalid index_type" :=
  ⟨by decide, rfl, by decide⟩

/-- C10, amended: a composite request with geometry present, a valid date
range and a non-empty image collection, whose uppercased `index_type` is
none of NDVI, NDWI, NSMI, TRUE_COLOR, is answered HTTP 400 with success
false and the error message `"Invalid index_type"`. -/
theorem C10_invalid_index_400 (req : CompReq) (count : ℕ)
    (hg : req.geometry ≠ none)
    (hd : validate_date_range req.start_date req.end_date = true)
    (hc : count ≠ 0)
    (hi : pyUpper req.index_type ∉ (["NDVI", "NDWI", "NSMI", "TRUE_COLOR"] :
      List String)) :
    composite req count = ⟨400, false, "Invalid index_type"⟩ := by
  simp only [List.mem_cons, List.not_mem_nil, or_false, not_or] at hi
  obtain ⟨h1, h2, h3, h4⟩ := hi
  unfold composite
  simp [hg, hd, hc, h1, h2, h3, h4]

/-- Witness for C10 at a request with `index_type = "INVALID"` passing all
earlier checks. -/
theorem C10_invalid_index_400_witness :
    composite ⟨some (), "2020-01-01", "2020-06-01", 30, "INVALID", 10⟩ 3 =
      ⟨400, false, "Invalid index_type"⟩ :=
  C10_invalid_index_400 _ 3 (by decide) (by decide) (by decide) (by decide)
